import Mathlib

/-!
Shallow embedding of the Trana emergency-dispatch server core
(src/server.ts) together with the two client-side guard functions
(acceptIncident / resolveIncident in the App component) that sit in
front of the HTTP routes.  Timestamps are modelled as seconds (Nat);
the SQLite age computation (a difference of strftime seconds) is an
Int subtraction.
-/

namespace Trana

/-- Incident status values stored in the incidents.status TEXT column.
The seven values that the schema comment and the code ever write. -/
inductive Status
  | triggered
  | escalating
  | hospital_notified
  | command_alerted
  | accepted
  | resolved
  | closed
deriving DecidableEq, Repr

/-- Row of the incidents table.  Columns uninvolved in the modelled
operations are kept; lat/lng REAL are modelled as Int since no
operation computes with them. -/
structure Incident where
  id : Nat
  type_ : String
  status : Status
  severity : String
  lat : Int
  lng : Int
  reporter_id : Option Nat
  responder_id : Option Nat
  created_at : Nat
  updated_at : Nat
deriving DecidableEq, Repr

/-- Row of the users table (the columns the modelled operations read:
id, role, status; name kept for fidelity). -/
structure User where
  id : Nat
  name : String
  role : String
  status : String
deriving DecidableEq, Repr

/-- One WebSocket transport handle: its identity and whether
readyState is OPEN. -/
structure Socket where
  sid : Nat
  isOpen : Bool
deriving DecidableEq, Repr

/-- The in-memory connection registry: the Map from user id to
WebSocket (server.ts line 95, `const clients = new Map()`).  A Map has
unique keys; entries are kept in insertion order. -/
abbrev Clients := List (Nat × Socket)

/-- Map.get: first (unique) entry for the key. -/
def getClient : Clients → Nat → Option Socket
  | [], _ => none
  | p :: rest, u => if p.1 == u then some p.2 else getClient rest u

/-- Map.set: replace the entry in place if the key exists, else append.
This is what `clients.set(userId, ws)` does on auth (line 146): a
second connection for the same user replaces the prior entry. -/
def setClient : Clients → Nat → Socket → Clients
  | [], u, s => [(u, s)]
  | p :: rest, u, s => if p.1 == u then (u, s) :: rest else p :: setClient rest u s

/-- Map.delete: remove the entry for the key (keys are unique in a
Map, so removal is modelled as filtering the key out).  This is
`clients.delete(userId)` in the close handler (line 173). -/
def deleteClient (cs : Clients) (u : Nat) : Clients :=
  cs.filter (fun p => p.1 != u)

/-- The close handler (server.ts lines 172-174): the connection closure
captured a local `userId`; if it is non-null the registry entry for
that user id is deleted, with no check that the entry still points at
this very socket. -/
def closeConn (cs : Clients) (authedUser : Option Nat) : Clients :=
  match authedUser with
  | some u => deleteClient cs u
  | none => cs

/-- Aggregate statistics payload (broadcastStats / stats summary). -/
structure Stats where
  totalIncidents : Nat
  activeResponders : Nat
  resolvedToday : Nat
  safetyScore : Nat
deriving DecidableEq, Repr

/-- WebSocket messages the server sends. -/
inductive Msg
  | new_incident (incident : Incident)
  | incident_accepted (incidentId : Nat) (responderId : Nat)
  | incident_updated (incident : Option Incident)
  | stats_update (stats : Stats)
deriving DecidableEq, Repr

/-- Whether a message is a stats_update. -/
def Msg.isStats : Msg → Bool
  | .stats_update _ => true
  | _ => false

/-- One message delivered on one socket to one user. -/
structure Delivery where
  userId : Nat
  sock : Nat
  msg : Msg
deriving DecidableEq, Repr

/-- The role set used by broadcastToResponders (server.ts line 259). -/
def responderRoles : List String :=
  [ "doctor", "police", "volunteer", "command", "admin"]

/-- The role set counted as active responders in the stats queries
(server.ts lines 271 and 365). -/
def activeResponderRoles : List String :=
  [ "doctor", "police", "volunteer"]

/-- The error thrown by POST /api/incidents at line 299. -/
def refErrLanguage : String := "ReferenceError: language is not defined"

/-- The error thrown by the accept handler at line 316 when the id
matched no row. -/
def typeErrReporter : String := "TypeError: Cannot read properties of undefined (reading reporter_id)"

/-- Toast text of the client accept guard. -/
def acceptDeniedText : String := "Only responders can accept dispatches."

/-- Toast text of the client resolve guard. -/
def resolveDeniedText : String := "Only the assigned responder or the reporter can resolve this."

/-- broadcastToResponders (server.ts lines 258-267): select from the
users table, at send time, the rows whose role is in the responder set
and whose status is active, then send to each such user id whose
registry entry holds an OPEN socket.  The registry stores no role: the
targeting role is the database role at send time. -/
def broadcastToResponders (users : List User) (cs : Clients) (m : Msg) : List Delivery :=
  (users.filter (fun r => responderRoles.contains r.role && r.status == "active")).filterMap
    (fun r =>
      match getClient cs r.id with
      | some s => if s.isOpen then some ⟨r.id, s.sid, m⟩ else none
      | none => none)

/-- broadcastStats delivery loop (server.ts lines 283-287): send the
stats payload to every registry entry whose socket is OPEN. -/
def broadcastStats (cs : Clients) (stats : Stats) : List Delivery :=
  cs.filterMap (fun p => if p.2.isOpen then some ⟨p.1, p.2.sid, .stats_update stats⟩ else none)

/-- Date under the IST offset used by the resolvedToday query:
shift by five hours thirty minutes (19800 s) and truncate to days. -/
def dayIST (t : Nat) : Nat := (t + 19800) / 86400

/-- The three COUNT queries of broadcastStats / stats summary
(server.ts lines 269-280): all incidents; users with an active
responder role; incidents resolved today (IST); constant safety score. -/
def computeStats (incidents : List Incident) (users : List User) (now : Nat) : Stats :=
  { totalIncidents := incidents.length
    activeResponders :=
      (users.filter (fun u => activeResponderRoles.contains u.role && u.status == "active")).length
    resolvedToday :=
      (incidents.filter (fun i => i.status == .resolved && dayIST i.updated_at == dayIST now)).length
    safetyScore := 84 }

/-- Whole server state: the two database tables the core touches, the
connection registry, and the AUTOINCREMENT counter for incidents. -/
structure ServerState where
  users : List User
  incidents : List Incident
  clients : Clients
  nextIncidentId : Nat
deriving DecidableEq, Repr

/-- HTTP handler outcome: a JSON 200 response, or an uncaught
exception (which Express turns into a 500). -/
inductive HttpOutcome
  | ok
  | created (id : Nat)
  | thrown (err : String)
deriving DecidableEq, Repr

/-- Result of running one HTTP handler: the new server state, the
WebSocket deliveries it performed, and the HTTP outcome. -/
structure HandlerResult where
  state : ServerState
  sent : List Delivery
  outcome : HttpOutcome
deriving DecidableEq, Repr

/-- Send to one specific user: look up the registry entry and deliver
if its socket is OPEN (the reporter notification pattern of
server.ts lines 316-323). -/
def sendTo (cs : Clients) (u : Nat) (m : Msg) : List Delivery :=
  match getClient cs u with
  | some s => if s.isOpen then [⟨u, s.sid, m⟩] else []
  | none => []

/-- Reporter notification in the accept handler: clients.get of a NULL
reporter_id finds nothing, so nothing is sent. -/
def notifyReporter (cs : Clients) (rid? : Option Nat) (m : Msg) : List Delivery :=
  match rid? with
  | some rid => sendTo cs rid m
  | none => []

/-- POST /api/incidents (server.ts lines 290-304).  The row is
inserted with the default triggered status; then line 299 builds the
new_incident payload with a reference to `language`, an identifier
declared nowhere in server.ts (it is React state of the client
component), so evaluating the payload throws a ReferenceError: the
handler performs neither broadcast and returns 500 instead of the
new id. -/
def createIncident (st : ServerState) (now : Nat) (type_ : String) (lat lng : Int)
    (reporterId : Option Nat) (severity : String) : HandlerResult :=
  let inc : Incident :=
    { id := st.nextIncidentId, type_ := type_, status := .triggered, severity := severity
      lat := lat, lng := lng, reporter_id := reporterId, responder_id := none
      created_at := now, updated_at := now }
  { state := { st with incidents := st.incidents ++ [inc], nextIncidentId := st.nextIncidentId + 1 }
    sent := []
    outcome := .thrown refErrLanguage }

/-- POST /api/incidents/:id/accept (server.ts lines 306-333).  The
UPDATE unconditionally sets status accepted and responder_id to the
request body value for the matching row — with no check of the
current status or responder.  Then the row is SELECTed back: if no
row matches the id, reading `incident.reporter_id` from `undefined`
throws a TypeError (HTTP 500) before any send; otherwise the reporter
is notified, incident_updated is broadcast to responders and stats to
all. -/
def acceptIncident (st : ServerState) (now : Nat) (id : Nat) (responderId : Nat) : HandlerResult :=
  let incidents := st.incidents.map (fun i =>
    if i.id == id then { i with status := .accepted, responder_id := some responderId, updated_at := now } else i)
  let st' := { st with incidents := incidents }
  match incidents.find? (fun i => i.id == id) with
  | none =>
      { state := st', sent := []
        outcome := .thrown typeErrReporter }
  | some incident =>
      { state := st'
        sent := notifyReporter st.clients incident.reporter_id (.incident_accepted id responderId)
                ++ broadcastToResponders st.users st.clients (.incident_updated (some incident))
                ++ broadcastStats st.clients (computeStats incidents st.users now)
        outcome := .ok }

/-- POST /api/incidents/:id/resolve (server.ts lines 335-349).  The
UPDATE unconditionally sets status resolved for the matching row —
no authorization data is even read from the request.  The row is
SELECTed back (possibly `undefined` when the id matches nothing) and
broadcast as incident_updated, then stats; the response is always
status ok. -/
def resolveIncident (st : ServerState) (now : Nat) (id : Nat) : HandlerResult :=
  let incidents := st.incidents.map (fun i =>
    if i.id == id then { i with status := .resolved, updated_at := now } else i)
  let incident? := incidents.find? (fun i => i.id == id)
  { state := { st with incidents := incidents }
    sent := broadcastToResponders st.users st.clients (.incident_updated incident?)
            ++ broadcastStats st.clients (computeStats incidents st.users now)
    outcome := .ok }

/-- The user object held by the client application. -/
structure ClientUser where
  id : Nat
  role : String
deriving DecidableEq, Repr

/-- Outcome shown by the client guard functions: an error toast with
no request issued, or the request was sent to the server. -/
inductive UiOutcome
  | toastError (text : String)
  | requestSent
deriving DecidableEq, Repr

/-- Result of a client operation: resulting server state, deliveries,
and what the UI did. -/
structure ClientResult where
  state : ServerState
  sent : List Delivery
  ui : UiOutcome
deriving DecidableEq, Repr

/-- Client acceptIncident (App component, part_000 lines 1185-1199):
only the actor role is checked — doctor, police or volunteer — and
then the POST is issued with the actor id as responderId.  Nothing
checks whether the incident is already accepted. -/
def clientAcceptIncident (user : ClientUser) (id : Nat) (st : ServerState) (now : Nat) : ClientResult :=
  if !(activeResponderRoles.contains user.role) then
    ⟨st, [], .toastError acceptDeniedText⟩
  else
    let r := acceptIncident st now id user.id
    ⟨r.state, r.sent, .requestSent⟩

/-- Client resolveIncident (App component, part_000 lines 1201-1221):
the incident is looked up in the locally fetched incidents list; the
POST is issued only when the actor is its responder, its reporter, or
an admin.  A strict comparison of a NULL responder_id (or a missing
incident) with the actor id is false. -/
def clientResolveIncident (localIncidents : List Incident) (user : ClientUser) (id : Nat)
    (st : ServerState) (now : Nat) : ClientResult :=
  let incident? := localIncidents.find? (fun i => i.id == id)
  let isResponder :=
    match incident? with
    | some i => i.responder_id == some user.id
    | none => false
  let isReporter :=
    match incident? with
    | some i => i.reporter_id == some user.id
    | none => false
  if !isResponder && !isReporter && user.role != "admin" then
    ⟨st, [], .toastError resolveDeniedText⟩
  else
    let r := resolveIncident st now id
    ⟨r.state, r.sent, .requestSent⟩

/-- Age of an incident in seconds at time `now`, as the SQL
strftime('%s','now') - strftime('%s', created_at). -/
def ageAt (now : Nat) (i : Incident) : Int := (now : Int) - (i.created_at : Int)

/-- Tier 2 WHERE clause (server.ts lines 102-107): status triggered
and age BETWEEN 60 AND 119. -/
def tier2Cond (now : Nat) (i : Incident) : Bool :=
  i.status == .triggered && decide (60 ≤ ageAt now i) && decide (ageAt now i ≤ 119)

/-- Tier 2 UPDATE row effect. -/
def tier2Update (now : Nat) (i : Incident) : Incident :=
  if tier2Cond now i then { i with status := .escalating, updated_at := now } else i

/-- Tier 3 WHERE clause (lines 110-115): status escalating and age
BETWEEN 120 AND 179. -/
def tier3Cond (now : Nat) (i : Incident) : Bool :=
  i.status == .escalating && decide (120 ≤ ageAt now i) && decide (ageAt now i ≤ 179)

/-- Tier 3 UPDATE row effect. -/
def tier3Update (now : Nat) (i : Incident) : Incident :=
  if tier3Cond now i then { i with status := .hospital_notified, updated_at := now } else i

/-- Tier 4 WHERE clause (lines 118-123): status hospital_notified and
age strictly greater than 180. -/
def tier4Cond (now : Nat) (i : Incident) : Bool :=
  i.status == .hospital_notified && decide (180 < ageAt now i)

/-- Tier 4 UPDATE row effect. -/
def tier4Update (now : Nat) (i : Incident) : Incident :=
  if tier4Cond now i then { i with status := .command_alerted, updated_at := now } else i

/-- The three UPDATE statements of one escalation tick, applied to the
whole table in order. -/
def tickUpdate (now : Nat) (incs : List Incident) : List Incident :=
  ((incs.map (tier2Update now)).map (tier3Update now)).map (tier4Update now)

/-- Total of the `changes` counters of the three UPDATEs: each counts
the rows its WHERE clause matched at the moment it ran. -/
def tickChanges (now : Nat) (incs : List Incident) : Nat :=
  incs.countP (tier2Cond now)
    + (incs.map (tier2Update now)).countP (tier3Cond now)
    + ((incs.map (tier2Update now)).map (tier3Update now)).countP (tier4Cond now)

/-- The SELECT after the UPDATEs (line 129): all incidents whose
status is now one of the three escalated tiers. -/
def escalatedIncidents (incs : List Incident) : List Incident :=
  incs.filter (fun i =>
    i.status == .escalating || i.status == .hospital_notified || i.status == .command_alerted)

/-- One run of the setInterval escalation body (server.ts lines
98-135): the three tier UPDATEs, then — only if some UPDATE changed a
row — a loop over every incident now in an escalated tier, sending
incident_updated to responders and (inside the same loop body, line
132) the stats broadcast to everyone. -/
def escalationTick (st : ServerState) (now : Nat) : ServerState × List Delivery :=
  let incidents := tickUpdate now st.incidents
  let sent :=
    if 0 < tickChanges now st.incidents then
      (escalatedIncidents incidents).flatMap (fun inc =>
        broadcastToResponders st.users st.clients (.incident_updated (some inc))
          ++ broadcastStats st.clients (computeStats incidents st.users now))
    else []
  ({ st with incidents := incidents }, sent)

/-! Helper lemmas about the registry and the broadcast fan-out. -/

theorem getClient_setClient_self (cs : Clients) (u : Nat) (s : Socket) :
    getClient (setClient cs u s) u = some s := by
  induction cs with
  | nil => simp [setClient, getClient]
  | cons p rest ih =>
    by_cases h : p.1 == u
    · simp [setClient, h, getClient]
    · simp [setClient, h, getClient, ih]

theorem getClient_deleteClient_self (cs : Clients) (u : Nat) :
    getClient (deleteClient cs u) u = none := by
  induction cs with
  | nil => rfl
  | cons p rest ih =>
    by_cases h : p.1 = u
    · simpa [deleteClient, List.filter_cons, h] using ih
    · simpa [deleteClient, List.filter_cons, h, getClient] using ih

theorem mem_broadcastToResponders {users : List User} {cs : Clients} {m : Msg} {d : Delivery} :
    d ∈ broadcastToResponders users cs m ↔
      ∃ r ∈ users, responderRoles.contains r.role = true ∧ r.status = "active" ∧
        ∃ s, getClient cs r.id = some s ∧ s.isOpen = true ∧ d = ⟨r.id, s.sid, m⟩ := by
  unfold broadcastToResponders
  rw [List.mem_filterMap]
  constructor
  · rintro ⟨r, hr, hfr⟩
    rw [List.mem_filter] at hr
    obtain ⟨hmem, hpred⟩ := hr
    rw [Bool.and_eq_true] at hpred
    refine ⟨r, hmem, hpred.1, by simpa using hpred.2, ?_⟩
    revert hfr
    cases hs : getClient cs r.id with
    | none => intro hc; cases hc
    | some s =>
      by_cases ho : s.isOpen
      · intro hc
        simp only [ho, if_true, Option.some.injEq] at hc
        exact ⟨s, rfl, ho, hc.symm⟩
      · intro hc
        simp [ho] at hc
  · rintro ⟨r, hmem, hrole, hstat, s, hget, hopen, rfl⟩
    refine ⟨r, ?_, ?_⟩
    · rw [List.mem_filter]
      refine ⟨hmem, ?_⟩
      rw [Bool.and_eq_true]
      exact ⟨hrole, by simp [hstat]⟩
    · simp [hget, hopen]

theorem broadcast_msg_eq {users : List User} {cs : Clients} {m : Msg} {d : Delivery}
    (h : d ∈ broadcastToResponders users cs m) : d.msg = m := by
  rcases mem_broadcastToResponders.mp h with ⟨r, _, _, _, s, _, _, rfl⟩
  rfl

theorem broadcast_skips_unregistered {users : List User} {cs : Clients} {m : Msg} {u : Nat}
    (h : getClient cs u = none) :
    ((broadcastToResponders users cs m).all (fun d => d.userId != u)) = true := by
  rw [List.all_eq_true]
  intro d hd
  rcases mem_broadcastToResponders.mp hd with ⟨r, _, _, _, s, hget, _, rfl⟩
  simp only [bne_iff_ne, ne_eq]
  intro hEq
  rw [hEq] at hget
  rw [h] at hget
  cases hget

/-- Number of stats_update messages delivered to user `u` in a
delivery list. -/
def statsTo (u : Nat) (ds : List Delivery) : Nat :=
  ds.countP (fun d => d.userId == u && d.msg.isStats)

theorem statsTo_append (u : Nat) (l l' : List Delivery) :
    statsTo u (l ++ l') = statsTo u l + statsTo u l' :=
  List.countP_append _ l l'

theorem statsTo_broadcastStats (u : Nat) (cs : Clients) (stats : Stats) :
    statsTo u (broadcastStats cs stats) = cs.countP (fun p => p.1 == u && p.2.isOpen) := by
  induction cs with
  | nil => rfl
  | cons p rest ih =>
    by_cases ho : p.2.isOpen
    · by_cases hu : p.1 == u
      · simp [broadcastStats, List.filterMap_cons, ho, hu, statsTo, List.countP_cons, Msg.isStats,
          ← ih, broadcastStats]
      · simp [broadcastStats, List.filterMap_cons, ho, hu, statsTo, List.countP_cons, Msg.isStats,
          ← ih, broadcastStats]
    · simp [broadcastStats, List.filterMap_cons, ho, statsTo, List.countP_cons, ← ih,
        broadcastStats, Bool.eq_false_iff.mpr ho]

theorem countP_key_zero_of_not_mem (u : Nat) (cs : Clients)
    (h : u ∉ cs.map Prod.fst) :
    cs.countP (fun p => p.1 == u && p.2.isOpen) = 0 := by
  rw [List.countP_eq_zero]
  intro p hp
  simp only [Bool.and_eq_true, beq_iff_eq]
  rintro ⟨h1, _⟩
  exact h (by rw [← h1]; exact List.mem_map_of_mem Prod.fst hp)

theorem countP_key_one (u : Nat) (cs : Clients) (s : Socket)
    (hnodup : (cs.map Prod.fst).Nodup)
    (hget : getClient cs u = some s) (hopen : s.isOpen = true) :
    cs.countP (fun p => p.1 == u && p.2.isOpen) = 1 := by
  induction cs with
  | nil => cases hget
  | cons p rest ih =>
    rw [List.map_cons, List.nodup_cons] at hnodup
    obtain ⟨hnot, hrest⟩ := hnodup
    by_cases hu : p.1 = u
    · have hs : p.2 = s := by
        have : getClient (p :: rest) u = some p.2 := by simp [getClient, hu]
        rw [this] at hget
        exact (Option.some.injEq _ _ ▸ hget)
      rw [List.countP_cons]
      have hz : rest.countP (fun q => q.1 == u && q.2.isOpen) = 0 :=
        countP_key_zero_of_not_mem u rest (hu ▸ hnot)
      simp [hz, hu, hs, hopen]
    · have hget' : getClient rest u = some s := by
        have : getClient (p :: rest) u = getClient rest u := by simp [getClient, hu]
        rw [← this]; exact hget
      rw [List.countP_cons]
      simp [hu, ih hrest hget']

theorem statsTo_broadcast_updated (u : Nat) (users : List User) (cs : Clients)
    (o : Option Incident) :
    statsTo u (broadcastToResponders users cs (Msg.incident_updated o)) = 0 := by
  unfold statsTo
  rw [List.countP_eq_zero]
  intro d hd
  have hm := broadcast_msg_eq hd
  simp [hm, Msg.isStats]

theorem statsTo_flatMap_one (u : Nat) (l : List Incident) (f : Incident → List Delivery)
    (h : ∀ x ∈ l, statsTo u (f x) = 1) : statsTo u (l.flatMap f) = l.length := by
  induction l with
  | nil => rfl
  | cons a t ih =>
    rw [List.flatMap_cons, statsTo_append, h a (List.mem_cons_self a t),
      ih (fun x hx => h x (List.mem_cons_of_mem a hx))]
    simp [Nat.add_comm]

/-- Effect of one whole tick on one incident row: the three UPDATEs
applied in order. -/
def stepTick (now : Nat) (i : Incident) : Incident :=
  tier4Update now (tier3Update now (tier2Update now i))

/-- Successor in the escalation tier order. -/
def nextTier : Status → Option Status
  | .triggered => some .escalating
  | .escalating => some .hospital_notified
  | .hospital_notified => some .command_alerted
  | _ => none

/-- Statuses that no tier WHERE clause matches: the tick never moves
an incident out of them. -/
def frozenStatus : Status → Bool
  | .accepted => true
  | .resolved => true
  | .closed => true
  | _ => false

theorem escalationTick_incidents (st : ServerState) (now : Nat) :
    (escalationTick st now).1.incidents = tickUpdate now st.incidents := rfl

theorem tickUpdate_eq_map (now : Nat) (incs : List Incident) :
    tickUpdate now incs = incs.map (stepTick now) := by
  unfold tickUpdate stepTick
  rw [List.map_map, List.map_map]
  rfl

theorem stepTick_status (now : Nat) (i : Incident) :
    ((stepTick now i).status = i.status ∨ nextTier i.status = some (stepTick now i).status) ∧
      (frozenStatus i.status = true → stepTick now i = i) := by
  unfold stepTick tier4Update tier3Update tier2Update tier4Cond tier3Cond tier2Cond
  cases hs : i.status <;>
    simp only [hs, frozenStatus, nextTier] <;>
    split_ifs <;>
    simp_all [nextTier, ageAt] <;>
    omega

/-! Concrete states used by witnesses and counterexamples. -/

/-- An incident already accepted by responder 5, reported by user 4. -/
def accInc : Incident :=
  { id := 1, type_ := "medical", status := .accepted, severity := "high", lat := 0, lng := 0
    reporter_id := some 4, responder_id := some 5, created_at := 0, updated_at := 10 }

/-- A server state holding only the accepted incident. -/
def stAccepted : ServerState :=
  { users := [], incidents := [accInc], clients := [], nextIncidentId := 2 }

/-! Claim theorems. -/

/-- C7: on every escalation tick the timer rewrites the incident table
by the three tier UPDATEs in order, and per incident this either keeps
the status or advances it exactly one step along triggered, escalating,
hospital_notified, command_alerted — never skipping a tier, never
moving backwards — while accepted, resolved and closed incidents are
left untouched.  Since this holds for every tick with any clock value,
no sequence of ticks can skip or reverse a tier either. -/
theorem escalation_monotonic (st : ServerState) (now : Nat) (i : Incident) :
    (escalationTick st now).1.incidents = st.incidents.map (stepTick now) ∧
    ((stepTick now i).status = i.status ∨ nextTier i.status = some (stepTick now i).status) ∧
    (frozenStatus i.status = true → stepTick now i = i) :=
  ⟨by rw [escalationTick_incidents, tickUpdate_eq_map], stepTick_status now i⟩

/-- C7 witness: on a concrete accepted incident, a tick at time 20
leaves it untouched, and the step-or-stay disjunction holds. -/
theorem escalation_monotonic_w :
    (escalationTick stAccepted 20).1.incidents = stAccepted.incidents.map (stepTick 20) ∧
    ((stepTick 20 accInc).status = accInc.status ∨
      nextTier accInc.status = some (stepTick 20 accInc).status) ∧
    stepTick 20 accInc = accInc :=
  ⟨(escalation_monotonic stAccepted 20 accInc).1,
    (escalation_monotonic stAccepted 20 accInc).2.1,
    (escalation_monotonic stAccepted 20 accInc).2.2 (by decide)⟩

/-- C8: registering user u on transport t1 and then on transport t2
leaves the registry bound to t2; a subsequent send to u either
delivers nothing (t2 closed) or delivers exactly one message on the
socket of t2 — never through the superseded t1. -/
theorem register_replaces_session (cs : Clients) (u : Nat) (t1 t2 : Socket) (m : Msg) :
    getClient (setClient (setClient cs u t1) u t2) u = some t2 ∧
    (sendTo (setClient (setClient cs u t1) u t2) u m = [] ∨
      sendTo (setClient (setClient cs u t1) u t2) u m = [⟨u, t2.sid, m⟩]) := by
  have hget := getClient_setClient_self (setClient cs u t1) u t2
  refine ⟨hget, ?_⟩
  unfold sendTo
  rw [hget]
  by_cases ho : t2.isOpen
  · right
    simp [ho]
  · left
    simp [ho]

/-- C8 witness at concrete transports with distinct socket ids. -/
theorem register_replaces_session_w :
    getClient (setClient (setClient [] 1 ⟨5, true⟩) 1 ⟨6, true⟩) 1 = some ⟨6, true⟩ ∧
    (sendTo (setClient (setClient [] 1 ⟨5, true⟩) 1 ⟨6, true⟩) 1 (Msg.incident_updated none) = [] ∨
      sendTo (setClient (setClient [] 1 ⟨5, true⟩) 1 ⟨6, true⟩) 1 (Msg.incident_updated none) =
        [⟨1, 6, Msg.incident_updated none⟩]) :=
  register_replaces_session [] 1 ⟨5, true⟩ ⟨6, true⟩ (Msg.incident_updated none)

/-- C9: after u authenticates on t1 and then on t2 (replacing the
entry), the close handler of the superseded connection t1 — whose
local userId is still u — deletes the current registry entry
unconditionally: afterwards the lookup for u is absent and responder
broadcasts deliver nothing to u, even though t2 is still open. -/
theorem stale_close_unregisters_user (cs : Clients) (u : Nat) (t1 t2 : Socket)
    (users : List User) (m : Msg) :
    getClient (closeConn (setClient (setClient cs u t1) u t2) (some u)) u = none ∧
    ((broadcastToResponders users (closeConn (setClient (setClient cs u t1) u t2) (some u)) m).all
      (fun d => d.userId != u)) = true := by
  have h1 : getClient (closeConn (setClient (setClient cs u t1) u t2) (some u)) u = none := by
    simpa [closeConn] using getClient_deleteClient_self (setClient (setClient cs u t1) u t2) u
  exact ⟨h1, broadcast_skips_unregistered h1⟩

/-- C9 witness: user 4, stale close of socket 1 after socket 2 took
over (socket 2 still open); a broadcast over a users table containing
user 4 delivers nothing to user 4. -/
theorem stale_close_unregisters_user_w :
    getClient (closeConn (setClient (setClient [] 4 ⟨1, true⟩) 4 ⟨2, true⟩) (some 4)) 4 = none ∧
    ((broadcastToResponders [⟨4, "Dr Sarah Chen", "doctor", "active"⟩]
        (closeConn (setClient (setClient [] 4 ⟨1, true⟩) 4 ⟨2, true⟩) (some 4))
        (Msg.incident_updated none)).all (fun d => d.userId != 4)) = true :=
  stale_close_unregisters_user [] 4 ⟨1, true⟩ ⟨2, true⟩
    [⟨4, "Dr Sarah Chen", "doctor", "active"⟩] (Msg.incident_updated none)

/-- A server state with one active connected doctor (user 2, socket 7)
and no incidents. -/
def stNoInc : ServerState :=
  { users := [⟨2, "Dr Sarah Chen", "doctor", "active"⟩], incidents := []
    clients := [(2, ⟨7, true⟩)], nextIncidentId := 1 }

/-- C3 (code bug): a well-formed create request inserts the incident
with status triggered, but the handler then throws a ReferenceError —
the identifier language read at server.ts line 299 is declared nowhere
in the module — so the caller receives a 500 instead of the new id and
neither new_incident nor stats_update is broadcast, although an active
connected doctor (a responder-role recipient) was there to receive
them. -/
theorem create_incident_throws_reference_error :
    (createIncident stNoInc 100 "medical" 515 (-9) (some 4) "high").outcome =
        HttpOutcome.thrown refErrLanguage ∧
    (createIncident stNoInc 100 "medical" 515 (-9) (some 4) "high").sent = [] ∧
    (createIncident stNoInc 100 "medical" 515 (-9) (some 4) "high").state.incidents =
      [{ id := 1, type_ := "medical", status := Status.triggered, severity := "high"
         lat := 515, lng := -9, reporter_id := some 4, responder_id := none
         created_at := 100, updated_at := 100 }] ∧
    getClient stNoInc.clients 2 = some ⟨7, true⟩ ∧
    "doctor" ∈ responderRoles :=
  ⟨rfl, rfl, rfl, rfl, by decide⟩

/-- C4 (code bug): with no incident numbered 7, the accept handler
throws a TypeError (reading reporter_id of undefined) after its no-op
UPDATE — a 500, not a not_found — mutating nothing and sending
nothing; the resolve handler instead answers ok and still broadcasts
incident_updated (carrying an undefined incident) and stats_update to
the connected doctor.  Neither request yields a not_found outcome. -/
theorem missing_incident_not_notfound :
    (acceptIncident stNoInc 0 7 2).outcome = HttpOutcome.thrown typeErrReporter ∧
    (acceptIncident stNoInc 0 7 2).sent = [] ∧
    (acceptIncident stNoInc 0 7 2).state = stNoInc ∧
    (resolveIncident stNoInc 0 7).outcome = HttpOutcome.ok ∧
    (resolveIncident stNoInc 0 7).state = stNoInc ∧
    (resolveIncident stNoInc 0 7).sent =
      [⟨2, 7, Msg.incident_updated none⟩, ⟨2, 7, Msg.stats_update ⟨0, 1, 0, 84⟩⟩] :=
  ⟨rfl, rfl, rfl, rfl, rfl, rfl⟩

/-- The accept handler always rewrites the table by its unconditional
UPDATE, whether or not the follow-up SELECT finds the row. -/
theorem acceptIncident_state (st : ServerState) (now id rid : Nat) :
    (acceptIncident st now id rid).state.incidents = st.incidents.map (fun i =>
      if i.id == id then
        { i with status := Status.accepted, responder_id := some rid, updated_at := now }
      else i) := by
  simp only [acceptIncident]
  split <;> rfl

/-- C1 counterexample: incident 1 is already accepted with responder
5; a second accept by doctor 7 is not rejected — the client role guard
passes, the handler answers ok, and the stored responder is replaced
by 7. -/
theorem accept_twice_overwrites_cex :
    accInc.status = Status.accepted ∧
    accInc.responder_id = some 5 ∧
    (clientAcceptIncident ⟨7, "doctor"⟩ 1 stAccepted 20).ui = UiOutcome.requestSent ∧
    (clientAcceptIncident ⟨7, "doctor"⟩ 1 stAccepted 20).state.incidents =
      [{ accInc with status := Status.accepted, responder_id := some 7, updated_at := 20 }] ∧
    (acceptIncident stAccepted 20 1 7).outcome = HttpOutcome.ok :=
  ⟨rfl, rfl, rfl, rfl, rfl⟩

/-- C1 amended: a second accept is not rejected.  Whenever the
incident id names an existing row, the accept handler answers ok and
unconditionally overwrites that row with status accepted and the new
actor as responder — the responder field holds the latest accepting
actor, not the first. -/
theorem accept_overwrites_responder (st : ServerState) (now id rid : Nat)
    (h : (st.incidents.find? (fun i => i.id == id)).isSome = true) :
    (acceptIncident st now id rid).outcome = HttpOutcome.ok ∧
    ((acceptIncident st now id rid).state.incidents.all (fun j =>
      j.id != id || (j.status == Status.accepted && j.responder_id == some rid))) = true := by
  constructor
  · rw [List.find?_isSome] at h
    obtain ⟨i, hmem, hid⟩ := h
    simp only [acceptIncident]
    split
    · next hnone =>
        rw [List.find?_eq_none] at hnone
        have hcontra := hnone _ (List.mem_map_of_mem (fun i =>
          if i.id == id then
            { i with status := Status.accepted, responder_id := some rid, updated_at := now }
          else i) hmem)
        simp [hid] at hcontra
    · rfl
  · rw [acceptIncident_state, List.all_eq_true]
    intro j hj
    rw [List.mem_map] at hj
    obtain ⟨i0, _, rfl⟩ := hj
    by_cases hc : (i0.id == id) = true
    · simp [hc]
    · simp [hc]
      exact Or.inl (by simpa using hc)

/-- C1 amended witness at the concrete already-accepted state. -/
theorem accept_overwrites_responder_w :
    (acceptIncident stAccepted 20 1 7).outcome = HttpOutcome.ok ∧
    ((acceptIncident stAccepted 20 1 7).state.incidents.all (fun j =>
      j.id != 1 || (j.status == Status.accepted && j.responder_id == some 7))) = true :=
  accept_overwrites_responder stAccepted 20 1 7 (by decide)

/-- C2: a resolve request by an actor who, per the incident table, is
neither the responder nor the reporter of the incident and lacks the
admin role is rejected by the resolve guard with an authorization
toast; no request reaches the server, the incident table is unchanged
and nothing is broadcast. -/
theorem resolve_unauthorized_rejected (st : ServerState) (user : ClientUser) (id now : Nat)
    (hresp : ∀ i ∈ st.incidents, i.id = id → i.responder_id ≠ some user.id)
    (hrep : ∀ i ∈ st.incidents, i.id = id → i.reporter_id ≠ some user.id)
    (hadm : user.role ≠ "admin") :
    clientResolveIncident st.incidents user id st now =
      ⟨st, [], UiOutcome.toastError resolveDeniedText⟩ := by
  simp only [clientResolveIncident]
  cases hfind : st.incidents.find? (fun i => i.id == id) with
  | none => simp [hfind, hadm]
  | some i =>
    have hid : i.id = id := by simpa using List.find?_some hfind
    have hmem := List.mem_of_find?_eq_some hfind
    have h1 : (i.responder_id == some user.id) = false := by
      simpa using hresp i hmem hid
    have h2 : (i.reporter_id == some user.id) = false := by
      simpa using hrep i hmem hid
    simp [hfind, h1, h2, hadm]

/-- A state holding the accepted incident and its reporter and
responder as users, for the C2 witness. -/
def stResolve : ServerState :=
  { users := [⟨4, "Jane Civilian", "civilian", "active"⟩, ⟨5, "Officer Mike Ross", "police", "active"⟩]
    incidents := [accInc], clients := [], nextIncidentId := 2 }

/-- C2 witness: volunteer 9 (neither responder 5 nor reporter 4 nor
admin) attempts to resolve incident 1 and is rejected with the
authorization toast, leaving state untouched and sending nothing. -/
theorem resolve_unauthorized_rejected_w :
    clientResolveIncident stResolve.incidents ⟨9, "volunteer"⟩ 1 stResolve 20 =
      ⟨stResolve, [], UiOutcome.toastError resolveDeniedText⟩ :=
  resolve_unauthorized_rejected stResolve ⟨9, "volunteer"⟩ 1 20 (by decide) (by decide) (by decide)

/-- A triggered incident created at time 0. -/
def trigIncA : Incident :=
  { id := 1, type_ := "medical", status := .triggered, severity := "high", lat := 0, lng := 0
    reporter_id := some 1, responder_id := none, created_at := 0, updated_at := 0 }

/-- A second triggered incident created at time 0. -/
def trigIncB : Incident :=
  { id := 2, type_ := "fire", status := .triggered, severity := "high", lat := 0, lng := 0
    reporter_id := some 1, responder_id := none, created_at := 0, updated_at := 0 }

/-- Two triggered incidents, one connected civilian session. -/
def stTwoTriggered : ServerState :=
  { users := [⟨1, "Jane Civilian", "civilian", "active"⟩]
    incidents := [trigIncA, trigIncB], clients := [(1, ⟨3, true⟩)], nextIncidentId := 3 }

/-- One triggered incident far older than the tier-2 window. -/
def stStale : ServerState :=
  { users := [], incidents := [trigIncA], clients := [], nextIncidentId := 2 }

/-- C6 counterexample: a triggered incident whose age at the tick is
200 seconds — at least 60 — is left in triggered by the tick, because
the tier-2 WHERE clause requires age BETWEEN 60 AND 119. -/
theorem stale_triggered_never_escalates_cex :
    trigIncA.status = Status.triggered ∧
    (60 : Int) ≤ ageAt 200 trigIncA ∧
    (escalationTick stStale 200).1.incidents = [trigIncA] :=
  ⟨rfl, by decide, rfl⟩

/-- What one tick does to a triggered row, both directions: it becomes
escalating (with updated_at refreshed) when its age lies in the tier-2
window 60 to 119 seconds inclusive, and is left exactly as it was for
every age outside that window. -/
theorem stepTick_triggered (now : Nat) (i : Incident) (hst : i.status = Status.triggered) :
    stepTick now i =
      (if 60 ≤ ageAt now i ∧ ageAt now i ≤ 119 then
        { i with status := Status.escalating, updated_at := now }
       else i) := by
  by_cases hw : 60 ≤ ageAt now i ∧ ageAt now i ≤ 119
  · rw [if_pos hw]
    have h60' : (60 : Int) ≤ (now : Int) - (i.created_at : Int) := hw.1
    have h119' : (now : Int) - (i.created_at : Int) ≤ 119 := hw.2
    have hc2 : tier2Cond now i = true := by
      simp [tier2Cond, hst, ageAt]
      omega
    have hc3 : tier3Cond now { i with status := Status.escalating, updated_at := now } = false := by
      simp [tier3Cond, ageAt]
      omega
    have hc4 : tier4Cond now { i with status := Status.escalating, updated_at := now } = false := by
      simp [tier4Cond]
    simp [stepTick, tier2Update, tier3Update, tier4Update, hc2, hc3, hc4]
  · rw [if_neg hw]
    have hc2 : tier2Cond now i = false := by
      cases hb : tier2Cond now i
      · rfl
      · simp only [tier2Cond, Bool.and_eq_true, beq_iff_eq, decide_eq_true_eq] at hb
        exact absurd ⟨hb.1.2, hb.2⟩ hw
    have hc3 : tier3Cond now i = false := by
      simp [tier3Cond, hst]
    have hc4 : tier4Cond now i = false := by
      simp [tier4Cond, hst]
    simp [stepTick, tier2Update, tier3Update, tier4Update, hc2, hc3, hc4]

/-- A triggered incident whose age is at least 120 seconds at every
tick of a sequence is never touched: every tick of the sequence leaves
the row unchanged, so it stays triggered. -/
theorem stepTick_stale_triggered (i : Incident) (hst : i.status = Status.triggered)
    (ticks : List Nat) (h : ∀ t ∈ ticks, 120 ≤ ageAt t i) :
    ticks.foldl (fun j t => stepTick t j) i = i := by
  induction ticks with
  | nil => rfl
  | cons t ts ih =>
    have h120 := h t (List.mem_cons_self t ts)
    have hneg : ¬(60 ≤ ageAt t i ∧ ageAt t i ≤ 119) := by
      rintro ⟨h60, h119⟩
      omega
    have hstep : stepTick t i = i := by
      rw [stepTick_triggered t i hst, if_neg hneg]
    rw [List.foldl_cons, hstep]
    exact ih (fun t' ht' => h t' (List.mem_cons_of_mem t ht'))

/-- C6 amended: the tick rewrites the table row-wise by stepTick, and
a triggered incident transitions to escalating exactly when its age
lies in the window 60 to 119 seconds inclusive (the integer-second
form of the interval from 60 inclusive to 120 exclusive), refreshing
updated_at; for any age outside the window the row is unchanged, so a
triggered incident whose age is 120 seconds or more at every tick of
any sequence of ticks is never escalated. -/
theorem tick_escalates_within_window (st : ServerState) (now : Nat) (i : Incident)
    (hst : i.status = Status.triggered) :
    (escalationTick st now).1.incidents = st.incidents.map (stepTick now) ∧
    stepTick now i =
      (if 60 ≤ ageAt now i ∧ ageAt now i ≤ 119 then
        { i with status := Status.escalating, updated_at := now }
       else i) ∧
    ∀ ticks : List Nat, (∀ t ∈ ticks, 120 ≤ ageAt t i) →
      ticks.foldl (fun j t => stepTick t j) i = i :=
  ⟨by rw [escalationTick_incidents, tickUpdate_eq_map],
    stepTick_triggered now i hst,
    fun ticks h => stepTick_stale_triggered i hst ticks h⟩

/-- C6 amended witness: at tick time 60 the triggered incident of age
60 escalates (the window branch of the characterization), and the
same incident, seen only by ticks at times 150, 200 and 500 — ages at
least 120 — is never escalated. -/
theorem tick_escalates_within_window_w :
    (escalationTick stTwoTriggered 60).1.incidents = stTwoTriggered.incidents.map (stepTick 60) ∧
    stepTick 60 trigIncA =
      (if 60 ≤ ageAt 60 trigIncA ∧ ageAt 60 trigIncA ≤ 119 then
        { trigIncA with status := Status.escalating, updated_at := 60 }
       else trigIncA) ∧
    [150, 200, 500].foldl (fun j t => stepTick t j) trigIncA = trigIncA :=
  ⟨(tick_escalates_within_window stTwoTriggered 60 trigIncA rfl).1,
    (tick_escalates_within_window stTwoTriggered 60 trigIncA rfl).2.1,
    (tick_escalates_within_window stTwoTriggered 60 trigIncA rfl).2.2 [150, 200, 500] (by decide)⟩

/-- C5 counterexample: a tick in which two incidents change tier
delivers the stats_update payload twice to the single connected open
session — once per escalated incident, not once for the batch. -/
theorem escalation_stats_per_incident_cex :
    0 < tickChanges 60 stTwoTriggered.incidents ∧
    statsTo 1 (escalationTick stTwoTriggered 60).2 = 2 :=
  ⟨by decide, by decide⟩

/-- C5 amended: in a tick where some tier UPDATE changed a row, the
stats_update broadcast is issued once per incident currently in an
escalated tier (it sits inside the per-incident loop), so a connected
open session receives exactly as many stats_update messages as there
are incidents in escalated tiers after the batch. -/
theorem escalation_stats_once_per_escalated (st : ServerState) (now u : Nat) (s : Socket)
    (hnodup : (st.clients.map Prod.fst).Nodup)
    (hget : getClient st.clients u = some s)
    (hopen : s.isOpen = true)
    (hchange : 0 < tickChanges now st.incidents) :
    statsTo u (escalationTick st now).2 =
      (escalatedIncidents (tickUpdate now st.incidents)).length := by
  have h2 : (escalationTick st now).2 =
      (escalatedIncidents (tickUpdate now st.incidents)).flatMap (fun inc =>
        broadcastToResponders st.users st.clients (Msg.incident_updated (some inc))
          ++ broadcastStats st.clients (computeStats (tickUpdate now st.incidents) st.users now)) := by
    simp only [escalationTick]
    rw [if_pos hchange]
  rw [h2]
  apply statsTo_flatMap_one
  intro x _
  rw [statsTo_append, statsTo_broadcast_updated, statsTo_broadcastStats,
    countP_key_one u st.clients s hnodup hget hopen]

/-- C5 amended witness: two incidents escalate, the connected session
receives two stats_update messages, equal to the number of incidents
now in escalated tiers. -/
theorem escalation_stats_once_per_escalated_w :
    statsTo 1 (escalationTick stTwoTriggered 60).2 =
      (escalatedIncidents (tickUpdate 60 stTwoTriggered.incidents)).length :=
  escalation_stats_once_per_escalated stTwoTriggered 60 1 ⟨3, true⟩ (by decide) rfl rfl (by decide)

/-- C10: a delivery of a responder broadcast reaches user uid on
socket sid carrying message mm exactly when mm is the broadcast
message and the users table, as read at send time, holds a row for uid
whose role is in the responder set and whose status is active, while
the registry entry for uid is an open socket with id sid.  The
registry stores no role, so only the database role at send time is
consulted; a connected user whose stored status is not active, or
whose stored role is outside the set, receives nothing. -/
theorem broadcast_targets_active_db_roles (users : List User) (cs : Clients) (m : Msg)
    (uid sid : Nat) (mm : Msg) :
    (⟨uid, sid, mm⟩ : Delivery) ∈ broadcastToResponders users cs m ↔
      (mm = m ∧ ∃ r ∈ users, r.id = uid ∧ responderRoles.contains r.role = true ∧
        r.status = "active" ∧ ∃ s, getClient cs uid = some s ∧ s.isOpen = true ∧ s.sid = sid) := by
  rw [mem_broadcastToResponders]
  constructor
  · rintro ⟨r, hmem, hrole, hstat, s, hget, hopen, heq⟩
    injection heq with h1 h2 h3
    subst h1
    subst h2
    subst h3
    exact ⟨rfl, r, hmem, rfl, hrole, hstat, s, hget, hopen, rfl⟩
  · rintro ⟨rfl, r, hmem, hid, hrole, hstat, s, hget, hopen, hsid⟩
    refine ⟨r, hmem, hrole, hstat, s, ?_, hopen, ?_⟩
    · rw [hid]
      exact hget
    · rw [hid, hsid]

/-- C10 witness: the connected active doctor receives the broadcast on
its registered socket. -/
theorem broadcast_targets_active_db_roles_w :
    (⟨2, 7, Msg.incident_updated none⟩ : Delivery) ∈
      broadcastToResponders stNoInc.users stNoInc.clients (Msg.incident_updated none) :=
  (broadcast_targets_active_db_roles stNoInc.users stNoInc.clients (Msg.incident_updated none)
      2 7 (Msg.incident_updated none)).mpr
    ⟨rfl, ⟨2, "Dr Sarah Chen", "doctor", "active"⟩, by decide, rfl, by decide, rfl,
      ⟨7, true⟩, rfl, rfl, rfl⟩

end Trana
